import Mathlib

/-
Verification of the ETL fuel-price pipeline (airflow/dags/pipeline.py).

The pipeline has five sequential stages; the three with data logic are
embedded here:
  * `clean_data`   : reads the raw CSV with separator `;` and decimal `,`,
                     drops a fixed column list with errors ignored, and
                     writes a comma-delimited CSV (lines 48-60);
  * `transform_data` : casts six columns to categorical (KeyError when one
                     is absent), parses the `Data da Coleta` column with
                     format `%d/%m/%Y`, derives `Year` and `Month`, and
                     writes the result (lines 62-76);
  * `load_to_postgres` / `validate_db` : creates the `fuels` table if
                     absent, inserts every row one by one with a single
                     commit after the loop, and validates the table
                     (lines 78-150).

A CSV file is modelled as a header of column names plus rows of textual
cells.  The pandas read/write round trip is modelled columnwise: a column
in which every cell is numeric (with the given decimal separator) is
re-rendered in canonical numeric form, any other column is kept verbatim;
a missing cell reads as the empty string (NaN).  The database table is a
list of rows of optional values (none = SQL NULL); the Validator is a pure
function of the table, which is the read-only behaviour of the source.
-/

namespace Pipeline

/-- A delimited text table: the header line of column names followed by
the data rows, each row a list of textual cells. -/
structure Csv where
  header : List String
  rows : List (List String)
deriving DecidableEq, Repr

/-- The cell of row `r` in the column at position `j`; a cell beyond the
end of a ragged row reads as the empty string (pandas fills NaN). -/
def cellAt (r : List String) (j : Nat) : String := r.getD j ""

/-- The column at position `j` of a block of rows. -/
def column (rows : List (List String)) (j : Nat) : List String :=
  rows.map (fun r => cellAt r j)

/-- A nonempty run of decimal digits. -/
def isNatChars (l : List Char) : Bool := !l.isEmpty && l.all Char.isDigit

/-- Value of a run of decimal digits. -/
def digitsToNat (l : List Char) : Nat :=
  l.foldl (fun n c => 10 * n + (c.toNat - 48)) 0

/-- Splits a character list at every occurrence of the separator `dec`. -/
def splitChars (dec : Char) : List Char → List (List Char)
  | [] => [[]]
  | c :: rest =>
    let r := splitChars dec rest
    if c = dec then [] :: r
    else
      match r with
      | [] => [[c]]
      | h :: t => (c :: h) :: t

/-- The default `na_values` markers of `pd.read_csv`: a cell holding one
of these (or nothing) is read as NaN and written back by `to_csv` as an
empty cell. -/
def na_markers : List String :=
  ["", "#N/A", "#N/A N/A", "#NA", "-1.#IND", "-1.#QNAN", "-NaN", "-nan",
   "1.#IND", "1.#QNAN", "<NA>", "N/A", "NA", "NULL", "NaN", "None", "n/a",
   "nan", "null"]

/-- The cell is read as missing (NaN) by pandas. -/
def isNaCell (s : String) : Bool := na_markers.contains s

/-- Surrounding spaces, which the pandas numeric converter skips. -/
def trimChars (l : List Char) : List Char :=
  ((l.dropWhile (· = ' ')).reverse.dropWhile (· = ' ')).reverse

/-- An optional leading sign; true means negative. -/
def parseSign : List Char → Bool × List Char
  | '-' :: rest => (true, rest)
  | '+' :: rest => (false, rest)
  | l => (false, l)

/-- A numeral as the pandas reader accepts it: sign, integer digits,
fraction digits and a power-of-ten exponent, or an infinity. -/
inductive PyFloat where
  | num (neg : Bool) (intDigits fracDigits : List Char) (exp : Int)
  | inf (neg : Bool)
deriving DecidableEq, Repr

/-- The exponent tail of a numeral: an optionally signed run of digits. -/
def parseExpTail (neg : Bool) (a b : List Char) (l : List Char) :
    Option PyFloat :=
  match parseSign l with
  | (eneg, l1) =>
    if isNatChars l1 then
      some (.num neg a b
        (if eneg then -(digitsToNat l1 : Int) else (digitsToNat l1 : Int)))
    else none

/-- The float numerals the pandas converter accepts, with decimal
separator `dec`: `sign? (digits (dec digits?)? | dec digits)
((e|E) sign? digits)?`, or an infinity word. -/
def parseFloatTok (dec : Char) (l : List Char) : Option PyFloat :=
  match parseSign l with
  | (neg, l1) =>
    if l1 = "inf".data || l1 = "Inf".data || l1 = "INF".data
        || l1 = "infinity".data || l1 = "Infinity".data then some (.inf neg)
    else
      match l1.span Char.isDigit with
      | (a, rest) =>
        match rest with
        | [] => if a.isEmpty then none else some (.num neg a [] 0)
        | c :: rest2 =>
          if c = dec then
            match rest2.span Char.isDigit with
            | (b, rest3) =>
              if a.isEmpty && b.isEmpty then none
              else
                match rest3 with
                | [] => some (.num neg a b 0)
                | e :: rest4 =>
                  if e = 'e' || e = 'E' then parseExpTail neg a b rest4
                  else none
          else if c = 'e' || c = 'E' then
            if a.isEmpty then none else parseExpTail neg a [] rest2
          else none

/-- The cell is an integer numeral (optional sign, digits, surrounding
spaces). -/
def isIntCell (s : String) : Bool :=
  match parseSign (trimChars s.data) with
  | (_, ds) => isNatChars ds

/-- The cell is a float numeral under decimal separator `dec`. -/
def isFloatCell (dec : Char) (s : String) : Bool :=
  (parseFloatTok dec (trimChars s.data)).isSome

/-- The spellings the pandas reader accepts as the boolean true. -/
def isTrueTok (l : List Char) : Bool :=
  l = "True".data || l = "TRUE".data || l = "true".data

/-- The cell is one of the boolean spellings pandas converts. -/
def isBoolCell (s : String) : Bool :=
  isTrueTok (trimChars s.data) || trimChars s.data = "False".data
    || trimChars s.data = "FALSE".data || trimChars s.data = "false".data

/-- Leading zeros removed, at least one digit kept. -/
def stripLeadZeros (l : List Char) : List Char :=
  match l.dropWhile (· = '0') with
  | [] => ['0']
  | r => r

/-- Trailing zeros removed, at least one digit kept. -/
def stripTrailZeros (l : List Char) : List Char :=
  match (l.reverse.dropWhile (· = '0')).reverse with
  | [] => ['0']
  | r => r

/-- The plain-decimal rendering of a parsed numeral as Python writes a
float: digits shifted by the exponent around the point, leading and
trailing zeros stripped, and always one digit on each side of the point.
The exponent-notation switch of Python for very large or small magnitudes
is outside the modelled range. -/
def renderPyNum (neg : Bool) (a b : List Char) (e : Int) : String :=
  let ds := a ++ b
  let point : Int := (a.length : Int) + e
  let sign := if neg then "-" else ""
  if ds.all (· = '0') then sign ++ "0.0"
  else
    let ip : List Char :=
      if point ≤ 0 then ['0']
      else if (ds.length : Int) ≤ point then
        ds ++ List.replicate (point - ds.length).toNat '0'
      else ds.take point.toNat
    let fp : List Char :=
      if point ≤ 0 then List.replicate (-point).toNat '0' ++ ds
      else if (ds.length : Int) ≤ point then ['0']
      else ds.drop point.toNat
    sign ++ String.mk (stripLeadZeros ip) ++ "." ++
      String.mk (stripTrailZeros fp)

/-- How `to_csv` writes one cell of an int64 column: the signed decimal
value, leading zeros and a negative zero normalized away. -/
def renderIntCell (s : String) : String :=
  match parseSign (trimChars s.data) with
  | (neg, ds) =>
    if neg && digitsToNat ds ≠ 0 then "-" ++ toString (digitsToNat ds)
    else toString (digitsToNat ds)

/-- How `to_csv` writes one cell of a float column. -/
def renderFloatCell (dec : Char) (s : String) : String :=
  match parseFloatTok dec (trimChars s.data) with
  | some (.num neg a b e) => renderPyNum neg a b e
  | some (.inf neg) => if neg then "-inf" else "inf"
  | none => s

/-- How `to_csv` writes one cell of a bool column. -/
def renderBoolCell (s : String) : String :=
  if isTrueTok (trimChars s.data) then "True" else "False"

/-- The pandas reader converts the whole column away from plain strings:
every cell an integer numeral (an NA marker would force float), or every
cell missing or a float numeral, or every cell missing or a boolean
spelling.  Any other column keeps object dtype and its strings
verbatim. -/
def typedColumn (dec : Char) (col : List String) : Bool :=
  col.all isIntCell
    || col.all (fun s => isNaCell s || isFloatCell dec s)
    || col.all (fun s => isNaCell s || isBoolCell s)

/-- What one cell of the file becomes after the pandas read (decimal
separator `dec`, column typing decided by all cells `col` of its column)
followed by the `to_csv` write: int columns are rendered as signed
decimal values, float columns in dot-decimal form with NaN as the empty
cell, bool columns as `True`/`False`, and in an object column every NA
marker becomes an empty cell while every other string is kept character
for character. -/
def readCell (dec : Char) (col : List String) (s : String) : String :=
  if col.all isIntCell then renderIntCell s
  else if col.all (fun c => isNaCell c || isFloatCell dec c) then
    (if isNaCell s then "" else renderFloatCell dec s)
  else if col.all (fun c => isNaCell c || isBoolCell c) then
    (if isNaCell s then "" else renderBoolCell s)
  else if isNaCell s then "" else s

/-- One row after the read/write round trip: every cell is re-rendered in
the context of its own column. -/
def normalizeRow (dec : Char) (rows : List (List String)) (r : List String) :
    List String :=
  (List.range r.length).map (fun j => readCell dec (column rows j) (cellAt r j))

/-- The fixed column drop list of `clean_data` (pipeline.py lines 52-55). -/
def drop_columns : List String :=
  ["Complemento", "Bairro", "Numero Rua", "Regiao - Sigla",
   "Estado - Sigla", "Municipio", "Nome da Rua", "Valor de Compra"]

/-- A column survives the drop. -/
def keep (c : String) : Bool := !(drop_columns.contains c)

/-- A row with the cells of dropped columns removed, positionally paired
with the header. -/
def dropRow (header : List String) (r : List String) : List String :=
  ((header.zip r).filter (fun p => keep p.1)).map Prod.snd

/-- The Cleaner (pipeline.py lines 48-60): `pd.read_csv(raw, sep=';',
decimal=',')`, then `df.drop(columns=drop_columns, errors='ignore')`, then
`df.to_csv(clean, index=False)` which writes comma-delimited.  The read
and write are modelled by the columnwise cell normalization
`normalizeRow`; the drop removes the listed columns, silently skipping
absent ones. -/
def clean_data (raw : Csv) : Csv :=
  { header := raw.header.filter keep,
    rows := (raw.rows.map (normalizeRow ',' raw.rows)).map (dropRow raw.header) }

/-- The field separator `to_csv` writes the cleaned file with (the pandas
default, no `sep` argument at line 58). -/
def clean_sep : String := ","

/-- A calendar date as produced by the `%d/%m/%Y` parse. -/
structure Date where
  year : Nat
  month : Nat
  day : Nat
deriving DecidableEq, Repr

/-- Gregorian leap-year rule. -/
def isLeap (y : Nat) : Bool := y % 4 == 0 && (y % 100 != 0 || y % 400 == 0)

/-- Number of days of month `m` of year `y`. -/
def daysInMonth (y m : Nat) : Nat :=
  if m == 2 then (if isLeap y then 29 else 28)
  else if m == 4 || m == 6 || m == 9 || m == 11 then 30
  else 31

/-- The strict `%d/%m/%Y` parse of `pd.to_datetime` (pipeline.py line 70):
day and month of one or two digits, a four-digit year, and the day must
exist in the calendar month; none when the value does not match. -/
def parseDMY (s : String) : Option Date :=
  match splitChars '/' s.data with
  | [d, m, y] =>
    if isNatChars d && isNatChars m && isNatChars y
        && decide (d.length ≤ 2) && decide (m.length ≤ 2) && y.length == 4 then
      let dv := digitsToNat d
      let mv := digitsToNat m
      let yv := digitsToNat y
      if 1 ≤ mv && mv ≤ 12 && 1 ≤ dv && dv ≤ daysInMonth yv mv then
        some ⟨yv, mv, dv⟩
      else none
    else none
  | _ => none

/-- Zero-padding to two digits, as in the ISO rendering of a date. -/
def pad2 (n : Nat) : String := if n < 10 then "0" ++ toString n else toString n

/-- Zero-padding to four digits, as in the ISO rendering of a date. -/
def pad4 (n : Nat) : String :=
  if n < 10 then "000" ++ toString n
  else if n < 100 then "00" ++ toString n
  else if n < 1000 then "0" ++ toString n
  else toString n

/-- The `YYYY-MM-DD` form `to_csv` writes a parsed datetime cell in. -/
def renderISO (d : Date) : String :=
  pad4 d.year ++ "-" ++ pad2 d.month ++ "-" ++ pad2 d.day

/-- The six columns cast to categorical by the Transformer
(pipeline.py line 65). -/
def category_cols : List String :=
  ["Revenda", "CNPJ da Revenda", "Cep", "Produto", "Unidade de Medida",
   "Bandeira"]

/-- The collection-date column. -/
def dateCol : String := "Data da Coleta"

/-- How a Transformer run fails: reading a column absent from the frame
raises a KeyError, and a date value that does not match the format makes
`pd.to_datetime` raise a parse error. -/
inductive TransformError where
  | missingColumn (c : String)
  | parseError (v : String)
deriving DecidableEq, Repr

/-- Position of the collection-date column in a header. -/
def dateIdx (header : List String) : Nat :=
  (header.findIdx? (· == dateCol)).getD 0

/-- Rendering of a derived `Year` or `Month` value by `to_csv`: when some
row has a missing date, `.dt.year` and `.dt.month` give float columns, so
every value gains a `.0` suffix; with no missing date they are integer
columns and the plain value is written. -/
def renderDeriv (hasNaT : Bool) (n : Nat) : String :=
  if hasNaT then toString n ++ ".0" else toString n

/-- One output row of the Transformer: a missing (NA) collection date is
NaT, written as an empty cell with empty `Year` and `Month`; a parsed
date is written in ISO form with its year and month appended. -/
def transformRow (j : Nat) (hasNaT : Bool) (r : List String) : List String :=
  if isNaCell (cellAt r j) then r.set j "" ++ ["", ""]
  else
    let d := (parseDMY (cellAt r j)).getD ⟨0, 0, 0⟩
    r.set j (renderISO d) ++
      [renderDeriv hasNaT d.year, renderDeriv hasNaT d.month]

/-- The Transformer (pipeline.py lines 62-76).  In source order: each of
the six category columns is read (first absent one raises KeyError) and
cast with no value change; then the collection-date column is read (absent
raises KeyError) and parsed with `%d/%m/%Y` — a missing value (NaN from
the read) propagates as NaT without error, a present non-matching value
raises a parse error; then `Year` and `Month` are derived from the parsed
dates and appended (float-rendered when any date is NaT), and the frame is
written with the date column in ISO form, NaT as an empty cell. -/
def transform_data (t : Csv) : Except TransformError Csv :=
  match category_cols.find? (fun c => !(t.header.contains c)) with
  | some c => .error (.missingColumn c)
  | none =>
    if t.header.contains dateCol then
      match t.rows.find?
          (fun r => !(isNaCell (cellAt r (dateIdx t.header)))
            && (parseDMY (cellAt r (dateIdx t.header))).isNone) with
      | some r => .error (.parseError (cellAt r (dateIdx t.header)))
      | none =>
        .ok { header := t.header ++ ["Year", "Month"],
              rows := t.rows.map (transformRow (dateIdx t.header)
                (t.rows.any (fun r => isNaCell (cellAt r (dateIdx t.header))))) }
    else .error (.missingColumn dateCol)

/-- One column of the `CREATE TABLE` statement (pipeline.py
lines 91-104). -/
structure ColumnDef where
  name : String
  sqlType : String
deriving DecidableEq, Repr

/-- The `fuels` schema exactly as the `CREATE TABLE IF NOT EXISTS`
statement writes it. -/
def fuels_schema : List ColumnDef :=
  [⟨"retailer", "TEXT"⟩, ⟨"retailer_cnpj", "TEXT"⟩, ⟨"zip_code", "TEXT"⟩,
   ⟨"product", "TEXT"⟩, ⟨"collection_date", "DATE"⟩,
   ⟨"sale_price", "NUMERIC"⟩, ⟨"unit", "TEXT"⟩, ⟨"brand", "TEXT"⟩,
   ⟨"year", "INT"⟩, ⟨"month", "INT"⟩]

/-- The primary key of `fuels`: the `CREATE TABLE` statement declares
none. -/
def fuels_primary_key : Option (List String) := none

/-- The uniqueness constraints of `fuels`: the `CREATE TABLE` statement
declares none. -/
def fuels_unique_constraints : List (List String) := []

/-- One persisted row of the `fuels` table; `none` is a SQL NULL. -/
structure FuelRow where
  retailer : Option String
  retailer_cnpj : Option String
  zip_code : Option String
  product : Option String
  collection_date : Option String
  sale_price : Option String
  unit : Option String
  brand : Option String
  year : Option String
  month : Option String
deriving DecidableEq, Repr

/-- How a Loader run fails in the embedded fragment: `row[c]` on a frame
without column `c` raises a KeyError mid-loop, and the database rejects an
INSERT whose value cannot be converted to the column type. -/
inductive LoadError where
  | missingColumn (c : String)
  | badValue (columnName : String) (v : String)
deriving DecidableEq, Repr

/-- An unsigned SQL integer literal, the shape the pipeline feeds the INT
columns. -/
def isSqlIntLit (s : String) : Bool := isNatChars s.data

/-- An unsigned SQL numeric literal `digits` or `digits.digits`, the shape
the pipeline feeds the NUMERIC column. -/
def isSqlNumericLit (s : String) : Bool :=
  match splitChars '.' s.data with
  | [a] => isNatChars a
  | [a, b] => isNatChars a && isNatChars b
  | _ => false

/-- An ISO `YYYY-MM-DD` date literal naming an existing calendar day, the
shape the pipeline feeds the DATE column. -/
def isSqlDateLit (s : String) : Bool :=
  match splitChars '-' s.data with
  | [y, m, d] =>
    isNatChars y && isNatChars m && isNatChars d
      && y.length == 4 && decide (m.length ≤ 2) && decide (d.length ≤ 2)
      && 1 ≤ digitsToNat m && digitsToNat m ≤ 12
      && 1 ≤ digitsToNat d && digitsToNat d ≤ daysInMonth (digitsToNat y) (digitsToNat m)
  | _ => false

/-- Whether the database accepts value `v` for a column of SQL type `ty`:
NULL is accepted everywhere, TEXT accepts every string (non-string values
reach it through an I/O conversion cast), NUMERIC accepts the numeric
literal shapes the pipeline produces and the float NaN, and DATE and INT
accept their literal shapes but reject NaN — so a missing date, year or
month value makes the INSERT fail.  INT also accepts a numeric literal,
which the float8-to-int assignment cast rounds. -/
def acceptValue (ty : String) (v : Option String) : Bool :=
  match v with
  | none => true
  | some s =>
    if ty == "NUMERIC" then isSqlNumericLit s || s == "NaN"
    else if ty == "DATE" then isSqlDateLit s
    else if ty == "INT" then isSqlIntLit s || isSqlNumericLit s
    else true

/-- Value the Loader binds for column `c` of row `r`: an error when the
column is absent from the frame, otherwise the cell.  A missing cell (an
NA marker, read as NaN) is passed through psycopg2 as the float NaN —
rendered `NaN` — and never as SQL NULL, so the bound value is always
present. -/
def cellVal (header : List String) (r : List String) (c : String) :
    Except LoadError (Option String) :=
  match header.findIdx? (· == c) with
  | none => .error (.missingColumn c)
  | some j => .ok (some (if isNaCell (cellAt r j) then "NaN" else cellAt r j))

/-- One `INSERT INTO fuels ... VALUES ...` of the loop (pipeline.py
lines 107-117): the ten source columns are read from the row in the order
of the VALUES tuple. -/
def toFuelRow (header : List String) (r : List String) :
    Except LoadError FuelRow := do
  let retailer ← cellVal header r "Revenda"
  let retailer_cnpj ← cellVal header r "CNPJ da Revenda"
  let zip_code ← cellVal header r "Cep"
  let product ← cellVal header r "Produto"
  let collection_date ← cellVal header r "Data da Coleta"
  let sale_price ← cellVal header r "Valor de Venda"
  let unit ← cellVal header r "Unidade de Medida"
  let brand ← cellVal header r "Bandeira"
  let year ← cellVal header r "Year"
  let month ← cellVal header r "Month"
  .ok ⟨retailer, retailer_cnpj, zip_code, product, collection_date,
       sale_price, unit, brand, year, month⟩

/-- The ten source columns the Loader reads, in the order of the VALUES
tuple (pipeline.py lines 114-116). -/
def source_cols : List String :=
  ["Revenda", "CNPJ da Revenda", "Cep", "Produto", "Data da Coleta",
   "Valor de Venda", "Unidade de Medida", "Bandeira", "Year", "Month"]

/-- Position of column `c` in a header that contains it. -/
def colPos (header : List String) (c : String) : Nat :=
  (header.findIdx? (· == c)).getD 0

/-- The cell of row `r` under column name `c`. -/
def cellOf (header : List String) (r : List String) (c : String) : String :=
  cellAt r (colPos header c)

/-- The value psycopg2 sends for the cell of row `r` under column `c`: a
missing cell becomes the float NaN, any other cell its own text. -/
def pyCell (header : List String) (r : List String) (c : String) : String :=
  if isNaCell (cellOf header r c) then "NaN" else cellOf header r c

/-- The row has no critical null and only values the table accepts: the
retailer and product cells are present (no NA marker), the sale price is
a present numeric literal, and the date, year and month cells are present
and well-formed for their column types — a missing value in any of the
last three would reach the DATE or INT column as NaN and fail the
INSERT. -/
def insertReady (header : List String) (r : List String) : Bool :=
  !(isNaCell (cellOf header r "Revenda"))
    && !(isNaCell (cellOf header r "Produto"))
    && !(isNaCell (cellOf header r "Valor de Venda"))
    && isSqlNumericLit (cellOf header r "Valor de Venda")
    && !(isNaCell (cellOf header r "Data da Coleta"))
    && isSqlDateLit (cellOf header r "Data da Coleta")
    && !(isNaCell (cellOf header r "Year"))
    && isSqlIntLit (cellOf header r "Year")
    && !(isNaCell (cellOf header r "Month"))
    && isSqlIntLit (cellOf header r "Month")

/-- The values of a row in the column order of the schema. -/
def rowValues (fr : FuelRow) : List (Option String) :=
  [fr.retailer, fr.retailer_cnpj, fr.zip_code, fr.product,
   fr.collection_date, fr.sale_price, fr.unit, fr.brand, fr.year, fr.month]

/-- Execution of one INSERT: the ten columns are read from the frame row
(KeyError on an absent column), then the database converts each value to
its column type, rejecting the first inconvertible one. -/
def insertRow (header : List String) (r : List String) :
    Except LoadError FuelRow := do
  let fr ← toFuelRow header r
  match (fuels_schema.zip (rowValues fr)).find?
      (fun p => !(acceptValue p.1.sqlType p.2)) with
  | some p => .error (.badValue p.1.name (p.2.getD ""))
  | none => .ok fr

/-- The insert loop: rows are inserted one by one in order, and the first
failing row aborts the loop, the rows after it never being attempted. -/
def insertRows (header : List String) :
    List (List String) → Except LoadError (List FuelRow)
  | [] => .ok []
  | r :: rs => do
    let fr ← insertRow header r
    let rest ← insertRows header rs
    .ok (fr :: rest)

/-- The Loader (pipeline.py lines 78-122) applied to the committed table
`db`: the table is created if absent (a no-op on an existing table, and
`db` already stands for the existing table), every row of the transformed
file is inserted by the loop, and one commit after the loop appends them
all to the committed table; a failing insert means no commit, so the error
is returned and the committed table stays `db`. -/
def load_to_postgres (t : Csv) (db : List FuelRow) :
    Except LoadError (List FuelRow) :=
  (insertRows t.header t.rows).map (fun inserted => db ++ inserted)

/-- The committed `fuels` table after a Loader run over committed table
`db`: the run commits only after all inserts, so a failed run leaves
`db` unchanged. -/
def loadResultTable (t : Csv) (db : List FuelRow) : List FuelRow :=
  match load_to_postgres t db with
  | .ok db2 => db2
  | .error _ => db

/-- How the Validator fails (pipeline.py lines 138-145): a ValueError for
an empty table, or a ValueError carrying the count of rows with critical
nulls. -/
inductive ValidationError where
  | noRows
  | criticalNulls (n : Nat)
deriving DecidableEq, Repr

/-- The row matches `retailer IS NULL OR product IS NULL OR sale_price
IS NULL`. -/
def isCriticalNull (r : FuelRow) : Bool :=
  r.retailer.isNone || r.product.isNone || r.sale_price.isNone

/-- The count the second validation query returns. -/
def criticalNullCount (db : List FuelRow) : Nat :=
  (db.filter isCriticalNull).length

/-- The Validator (pipeline.py lines 124-150): count all rows and fail on
zero; then count the rows with a critical null and fail on a positive
count, that count in the error; otherwise succeed.  Both statements are
SELECTs, so the function only reads the table. -/
def validate_db (db : List FuelRow) : Except ValidationError Unit :=
  if db.length == 0 then .error .noRows
  else if criticalNullCount db > 0 then .error (.criticalNulls (criticalNullCount db))
  else .ok ()

/-- Decidable equality of results, so that witnesses evaluate by
`decide`. -/
instance {ε α : Type} [DecidableEq ε] [DecidableEq α] :
    DecidableEq (Except ε α) := fun
  | .error e₁, .error e₂ => decidable_of_iff (e₁ = e₂) (by simp)
  | .error _, .ok _ => isFalse (by simp)
  | .ok _, .error _ => isFalse (by simp)
  | .ok a₁, .ok a₂ => decidable_of_iff (a₁ = a₂) (by simp)

/-! Helper lemmas about the insert loop. -/

theorem insertRows_length (header : List String) :
    ∀ (rows : List (List String)) (l : List FuelRow),
      insertRows header rows = .ok l → l.length = rows.length := by
  intro rows
  induction rows with
  | nil => intro l h; simp [insertRows] at h; simp [← h]
  | cons r rs ih =>
    intro l h
    simp only [insertRows, bind, Except.bind] at h
    cases hr : insertRow header r with
    | error e => rw [hr] at h; simp at h
    | ok fr =>
      rw [hr] at h
      cases hrest : insertRows header rs with
      | error e => rw [hrest] at h; simp at h
      | ok rest =>
        rw [hrest] at h
        simp at h
        subst h
        simp [ih rest hrest]

theorem insertRows_append_abort (header : List String) (e : LoadError) :
    ∀ (pre : List (List String)) (bad : List String)
      (post : List (List String)),
      (∀ r ∈ pre, (insertRow header r).isOk = true) →
      insertRow header bad = .error e →
      insertRows header (pre ++ bad :: post) = .error e := by
  intro pre
  induction pre with
  | nil =>
    intro bad post _ hbad
    simp [insertRows, hbad, bind, Except.bind]
  | cons r rs ih =>
    intro bad post hpre hbad
    have hr : (insertRow header r).isOk = true := hpre r (by simp)
    cases hir : insertRow header r with
    | error e2 => rw [hir] at hr; simp [Except.isOk, Except.toBool] at hr
    | ok fr =>
      simp only [List.cons_append, insertRows, bind, Except.bind, hir]
      simp only [List.append_eq]
      rw [ih bad post (fun x hx => hpre x (by simp [hx])) hbad]

/-! Theorems for the claims. -/

/-- C2: the Validator fails with `no rows` exactly on the empty table,
fails with a critical-null error exactly when the table is nonempty and
has a positive number of rows with a null retailer, product or sale
price — the error carrying that exact count — and succeeds otherwise.
The zero-row check runs first, so the empty table reports `noRows`, and
the Validator is a pure function of the table, performing no write. -/
theorem validate_db_characterization (db : List FuelRow) :
    (validate_db db = .error .noRows ↔ db = []) ∧
    (∀ n, validate_db db = .error (.criticalNulls n) ↔
      db ≠ [] ∧ n = criticalNullCount db ∧ 0 < n) ∧
    (validate_db db = .ok () ↔ db ≠ [] ∧ criticalNullCount db = 0) := by
  rcases db with _ | ⟨r, rs⟩
  · simp [validate_db, criticalNullCount]
  · by_cases h : criticalNullCount (r :: rs) > 0
    · simp [validate_db, h]
      constructor
      · intro n
        constructor
        · rintro ⟨h1, h2⟩
          omega
        · rintro ⟨h1, h2⟩
          omega
      · omega
    · simp [validate_db, h]
      omega

/-- C5: the header of the cleaned output is the raw header minus the
fixed drop list, order preserved, and a column of the drop list absent
from the raw header is silently ignored — `clean_data` is total and a
name belongs to the cleaned header exactly when it is a raw column not in
the drop list. -/
theorem clean_header_exact (raw : Csv) :
    (clean_data raw).header = raw.header.filter keep ∧
    ∀ c, c ∈ (clean_data raw).header ↔ c ∈ raw.header ∧ c ∉ drop_columns := by
  refine ⟨rfl, fun c => ?_⟩
  simp [clean_data, List.mem_filter, keep]

/-- C9: the `CREATE TABLE` statement of the Loader declares no primary
key and no uniqueness constraint, and running the Loader twice on the
same transformed file over an initially empty table leaves the
concatenation of the first run's rows with themselves: `2 * N` rows, the
second `N` duplicating the first. -/
theorem fuels_no_constraints_duplicate_load :
    fuels_primary_key = none ∧ fuels_unique_constraints = [] ∧
    ∀ (t : Csv) (db : List FuelRow), load_to_postgres t [] = .ok db →
      load_to_postgres t db = .ok (db ++ db) ∧
      (db ++ db).length = 2 * t.rows.length := by
  refine ⟨rfl, rfl, fun t db h => ?_⟩
  have hins : insertRows t.header t.rows = .ok db := by
    unfold load_to_postgres at h
    cases hi : insertRows t.header t.rows with
    | error e => rw [hi] at h; simp [Except.map] at h
    | ok l =>
      rw [hi] at h
      simp [Except.map] at h
      rw [h]
  constructor
  · unfold load_to_postgres
    rw [hins]
    simp [Except.map]
  · have hlen := insertRows_length t.header t.rows db hins
    simp [List.length_append]
    omega

/-- C3: each row of the transformed file is inserted by its own INSERT
statement and the only commit comes after the whole loop, so when the
insert of some row fails — every row before it having succeeded — the
loop stops there with that row's error whatever rows follow, and the
committed `fuels` table is left exactly as it was before the run. -/
theorem load_abort_semantics (header : List String) (pre : List (List String))
    (bad : List String) (post : List (List String)) (db : List FuelRow)
    (e : LoadError)
    (hpre : ∀ r ∈ pre, (insertRow header r).isOk = true)
    (hbad : insertRow header bad = .error e) :
    load_to_postgres ⟨header, pre ++ bad :: post⟩ db = .error e ∧
    loadResultTable ⟨header, pre ++ bad :: post⟩ db = db := by
  have h := insertRows_append_abort header e pre bad post hpre hbad
  constructor
  · unfold load_to_postgres
    rw [h]
    simp [Except.map]
  · unfold loadResultTable load_to_postgres
    rw [h]
    simp [Except.map]

/-! Concrete data for witnesses. -/

/-- A transformed-file row acceptable to every column type. -/
def goodRow1 : List String :=
  ["Posto A", "123", "999", "Gasolina", "2025-01-05", "5.99", "L",
   "Ipiranga", "2025", "1"]

/-- A transformed-file row whose sale price the NUMERIC column rejects. -/
def badRow1 : List String :=
  ["Posto B", "124", "998", "Etanol", "2025-01-05", "abc", "L", "Shell",
   "2025", "1"]

/-- A nonempty committed table. -/
def tbl1 : List FuelRow :=
  [⟨some "X", none, none, some "P", none, some "1", none, none, none, none⟩]

/-- The persisted form of `goodRow1`. -/
def fuelRow1 : FuelRow :=
  ⟨some "Posto A", some "123", some "999", some "Gasolina",
   some "2025-01-05", some "5.99", some "L", some "Ipiranga", some "2025",
   some "1"⟩

/-- Witness for C3: with one row already inserted, a row with sale price
`abc` aborts the run with the database error, whatever row follows, and
the committed table is untouched. -/
theorem load_abort_semantics_witness :
    load_to_postgres ⟨source_cols, [goodRow1] ++ badRow1 :: [goodRow1]⟩ tbl1 =
      .error (.badValue "sale_price" "abc") ∧
    loadResultTable ⟨source_cols, [goodRow1] ++ badRow1 :: [goodRow1]⟩ tbl1 =
      tbl1 :=
  load_abort_semantics source_cols [goodRow1] badRow1 [goodRow1] tbl1 _
    (by decide) (by decide)

/-- Witness for C9: loading the same one-row file twice doubles the
table. -/
theorem fuels_duplicate_load_witness :
    load_to_postgres ⟨source_cols, [goodRow1]⟩ [fuelRow1] =
      .ok ([fuelRow1] ++ [fuelRow1]) ∧
    ([fuelRow1] ++ [fuelRow1]).length =
      2 * (Csv.mk source_cols [goodRow1]).rows.length :=
  fuels_no_constraints_duplicate_load.2.2 ⟨source_cols, [goodRow1]⟩ [fuelRow1]
    (by decide)

/-! Helper lemmas for the round-trip theorem. -/

theorem cellVal_of_contains (header : List String) (r : List String) (c : String)
    (h : header.contains c = true) :
    cellVal header r c = .ok (some (pyCell header r c)) := by
  unfold cellVal pyCell cellOf colPos
  cases hf : header.findIdx? (· == c) with
  | none =>
    exfalso
    rw [List.findIdx?_eq_none_iff] at hf
    obtain ⟨a, ha, hbeq⟩ := List.contains_iff_exists_mem_beq.mp h
    have hfa := hf a ha
    rw [beq_iff_eq] at hbeq
    subst hbeq
    simp at hfa
  | some j => simp

theorem acceptValue_text (v : Option String) : acceptValue "TEXT" v = true := by
  cases v <;> rfl

theorem toFuelRow_of_cols (header : List String) (r : List String)
    (hcols : ∀ c ∈ source_cols, header.contains c = true) :
    toFuelRow header r = .ok
      ⟨some (pyCell header r "Revenda"),
       some (pyCell header r "CNPJ da Revenda"),
       some (pyCell header r "Cep"),
       some (pyCell header r "Produto"),
       some (pyCell header r "Data da Coleta"),
       some (pyCell header r "Valor de Venda"),
       some (pyCell header r "Unidade de Medida"),
       some (pyCell header r "Bandeira"),
       some (pyCell header r "Year"),
       some (pyCell header r "Month")⟩ := by
  have h1 := cellVal_of_contains header r "Revenda" (hcols _ (by simp [source_cols]))
  have h2 := cellVal_of_contains header r "CNPJ da Revenda" (hcols _ (by simp [source_cols]))
  have h3 := cellVal_of_contains header r "Cep" (hcols _ (by simp [source_cols]))
  have h4 := cellVal_of_contains header r "Produto" (hcols _ (by simp [source_cols]))
  have h5 := cellVal_of_contains header r "Data da Coleta" (hcols _ (by simp [source_cols]))
  have h6 := cellVal_of_contains header r "Valor de Venda" (hcols _ (by simp [source_cols]))
  have h7 := cellVal_of_contains header r "Unidade de Medida" (hcols _ (by simp [source_cols]))
  have h8 := cellVal_of_contains header r "Bandeira" (hcols _ (by simp [source_cols]))
  have h9 := cellVal_of_contains header r "Year" (hcols _ (by simp [source_cols]))
  have h10 := cellVal_of_contains header r "Month" (hcols _ (by simp [source_cols]))
  unfold toFuelRow
  rw [h1, h2, h3, h4, h5, h6, h7, h8, h9, h10]
  rfl

theorem acceptValue_none (ty : String) : acceptValue ty none = true := rfl

theorem acceptValue_date (s : String) :
    acceptValue "DATE" (some s) = isSqlDateLit s := rfl

theorem acceptValue_numeric (s : String) :
    acceptValue "NUMERIC" (some s) = (isSqlNumericLit s || s == "NaN") := rfl

theorem acceptValue_int (s : String) :
    acceptValue "INT" (some s) = (isSqlIntLit s || isSqlNumericLit s) := rfl

theorem checkRow_accepts (fr : FuelRow)
    (h5 : acceptValue "DATE" fr.collection_date = true)
    (h6 : acceptValue "NUMERIC" fr.sale_price = true)
    (h9 : acceptValue "INT" fr.year = true)
    (h10 : acceptValue "INT" fr.month = true) :
    (fuels_schema.zip (rowValues fr)).find?
      (fun p => !(acceptValue p.1.sqlType p.2)) = none := by
  obtain ⟨a, b, c, d, e, f, g, h, i, j⟩ := fr
  simp only [rowValues] at *
  simp [fuels_schema, List.zip, List.find?, acceptValue_text, h5, h6, h9, h10]

theorem insertRow_ready (header : List String) (r : List String)
    (hcols : ∀ c ∈ source_cols, header.contains c = true)
    (hr : insertReady header r = true) :
    ∃ fr, insertRow header r = .ok fr ∧ isCriticalNull fr = false := by
  simp only [insertReady, Bool.and_eq_true, Bool.not_eq_true'] at hr
  obtain ⟨⟨⟨⟨⟨⟨⟨⟨⟨hrevNA, hprodNA⟩, hnumNA⟩, hnum⟩, hdateNA⟩, hdate⟩,
    hyearNA⟩, hyear⟩, hmonthNA⟩, hmonth⟩ := hr
  have htf := toFuelRow_of_cols header r hcols
  have hadate : acceptValue "DATE" (some (pyCell header r "Data da Coleta")) =
      true := by
    rw [acceptValue_date]
    unfold pyCell
    rw [hdateNA]
    simpa using hdate
  have hanum : acceptValue "NUMERIC"
      (some (pyCell header r "Valor de Venda")) = true := by
    rw [acceptValue_numeric]
    unfold pyCell
    rw [hnumNA]
    simp [hnum]
  have hayear : acceptValue "INT" (some (pyCell header r "Year")) = true := by
    rw [acceptValue_int]
    unfold pyCell
    rw [hyearNA]
    simp [hyear]
  have hamonth : acceptValue "INT" (some (pyCell header r "Month")) = true := by
    rw [acceptValue_int]
    unfold pyCell
    rw [hmonthNA]
    simp [hmonth]
  unfold insertRow
  rw [htf]
  simp only [bind, Except.bind]
  rw [checkRow_accepts _ hadate hanum hayear hamonth]
  exact ⟨_, rfl, by simp [isCriticalNull]⟩

theorem insertRows_ready (header : List String)
    (hcols : ∀ c ∈ source_cols, header.contains c = true) :
    ∀ (rows : List (List String)),
      (∀ r ∈ rows, insertReady header r = true) →
      ∃ l, insertRows header rows = .ok l ∧ l.length = rows.length ∧
        ∀ fr ∈ l, isCriticalNull fr = false := by
  intro rows
  induction rows with
  | nil => intro _; exact ⟨[], rfl, rfl, by simp⟩
  | cons r rs ih =>
    intro hready
    obtain ⟨fr, hfr, hnull⟩ :=
      insertRow_ready header r hcols (hready r (by simp))
    obtain ⟨l, hl, hlen, hall⟩ := ih (fun x hx => hready x (by simp [hx]))
    refine ⟨fr :: l, ?_, by simp [hlen], ?_⟩
    · simp only [insertRows, bind, Except.bind, hfr, hl]
    · intro x hx
      rcases List.mem_cons.mp hx with h | h
      · rw [h]; exact hnull
      · exact hall x h

/-- C1 as amended: a transformed file with `N ≥ 1` rows that carries the
ten source columns, whose retailer, product and sale-price cells are
present, whose sale price is a numeric literal, and whose date, year and
month values are present and well-formed for their column types — a
missing one would reach the DATE or INT column as NaN and abort the
insert — loads into an initially empty `fuels` table as exactly `N`
rows, and the subsequent Validator run succeeds. -/
theorem load_validate_round_trip (t : Csv)
    (hcols : ∀ c ∈ source_cols, t.header.contains c = true)
    (hne : t.rows ≠ [])
    (hready : ∀ r ∈ t.rows, insertReady t.header r = true) :
    ∃ db, load_to_postgres t [] = .ok db ∧ db.length = t.rows.length ∧
      validate_db db = .ok () := by
  obtain ⟨l, hl, hlen, hall⟩ := insertRows_ready t.header hcols t.rows hready
  refine ⟨l, ?_, hlen, ?_⟩
  · unfold load_to_postgres
    rw [hl]
    simp [Except.map]
  · have h0 : l.length ≠ 0 := by
      rw [hlen]
      simpa [List.length_eq_zero] using hne
    have hc : criticalNullCount l = 0 := by
      unfold criticalNullCount
      rw [List.filter_eq_nil_iff.mpr (fun a ha => by simp [hall a ha])]
      rfl
    unfold validate_db
    simp [h0, hc]

/-- C1, counterexample: a transformed file with zero rows — vacuously
free of critical nulls — loads into an empty table with exactly zero
rows, yet the subsequent Validator run raises the no-rows error instead
of succeeding. -/
theorem load_validate_empty_counterexample :
    load_to_postgres ⟨source_cols, []⟩ [] = .ok [] ∧
    validate_db [] = .error .noRows := by decide

/-- Witness for C1: a one-row transformed file with no critical nulls
loads to a one-row table that validates. -/
theorem load_validate_round_trip_witness :
    ∃ db, load_to_postgres ⟨source_cols, [goodRow1]⟩ [] = .ok db ∧
      db.length = (Csv.mk source_cols [goodRow1]).rows.length ∧
      validate_db db = .ok () :=
  load_validate_round_trip ⟨source_cols, [goodRow1]⟩ (by decide) (by decide)
    (by decide)

/-! The Transformer claims. -/

theorem parseDMY_na (s : String) (h : isNaCell s = true) : parseDMY s = none := by
  have hmem : s ∈ na_markers := by
    obtain ⟨a, ha, hbeq⟩ := List.contains_iff_exists_mem_beq.mp h
    rw [beq_iff_eq] at hbeq
    subst hbeq
    exact ha
  unfold na_markers at hmem
  fin_cases hmem <;> rfl

theorem transform_ok_inv (t u : Csv) (h : transform_data t = .ok u) :
    category_cols.find? (fun c => !(t.header.contains c)) = none ∧
    t.header.contains dateCol = true ∧
    t.rows.find? (fun r => !(isNaCell (cellAt r (dateIdx t.header)))
      && (parseDMY (cellAt r (dateIdx t.header))).isNone) = none ∧
    u = { header := t.header ++ ["Year", "Month"],
          rows := t.rows.map (transformRow (dateIdx t.header)
            (t.rows.any (fun r => isNaCell (cellAt r (dateIdx t.header))))) } := by
  unfold transform_data at h
  split at h
  · exact absurd h (by simp)
  · rename_i hc
    split at h
    · rename_i hd
      split at h
      · exact absurd h (by simp)
      · rename_i hr
        simp only [Except.ok.injEq] at h
        exact ⟨hc, by simpa using hd, hr, h.symm⟩
    · exact absurd h (by simp)

theorem set_append_cell (r : List String) (j k : Nat) (x : String)
    (l : List String) (hk : k ≠ j) (hlt : k < r.length) :
    cellAt (r.set j x ++ l) k = cellAt r k := by
  unfold cellAt
  rw [List.getD_eq_getElem?_getD, List.getElem?_append_left
      (by rw [List.length_set]; exact hlt),
    List.getElem?_set_ne (fun he => hk he.symm), ← List.getD_eq_getElem?_getD]

theorem transformRow_cell_preserved (j : Nat) (hasNaT : Bool)
    (r : List String) (k : Nat) (hk : k ≠ j) (hlt : k < r.length) :
    cellAt (transformRow j hasNaT r) k = cellAt r k := by
  unfold transformRow
  by_cases hna : isNaCell (cellAt r j) = true
  · rw [if_pos hna]
    exact set_append_cell r j k "" ["", ""] hk hlt
  · rw [if_neg hna]
    exact set_append_cell r j k _ _ hk hlt

/-- C6: when the Transformer succeeds, the output has exactly as many
data rows as the input, in the same order — the cell of any original
column other than the collection-date one is unchanged in the
corresponding row — and its columns are the original ones plus the two
derived columns `Year` and `Month`. -/
theorem transform_row_count_and_columns (t u : Csv)
    (h : transform_data t = .ok u) :
    u.rows.length = t.rows.length ∧
    u.header = t.header ++ ["Year", "Month"] ∧
    ∀ i k, k ≠ dateIdx t.header → k < (t.rows.getD i []).length →
      cellAt (u.rows.getD i []) k = cellAt (t.rows.getD i []) k := by
  obtain ⟨-, -, -, hu⟩ := transform_ok_inv t u h
  subst hu
  refine ⟨by simp, rfl, ?_⟩
  intro i k hk hlt
  cases hx : t.rows[i]? with
  | none =>
    have : t.rows.getD i [] = [] := by
      rw [List.getD_eq_getElem?_getD, hx]
      rfl
    rw [this] at hlt
    simp at hlt
  | some row =>
    have hgr : t.rows.getD i [] = row := by
      rw [List.getD_eq_getElem?_getD, hx]
      rfl
    have hgu : ∀ (f : List String → List String),
        ((t.rows.map f).getD i []) = f row := by
      intro f
      rw [List.getD_eq_getElem?_getD, List.getElem?_map, hx]
      rfl
    rw [hgr] at hlt
    simp only [hgu, hgr]
    exact transformRow_cell_preserved _ _ row k hk hlt

/-- C7: in every row of a successful transform whose collection dates are
all present and parsed, the `Year` cell is the year component and the
`Month` cell the month component of that row's collection date as parsed
with the day/month/year format.  (A missing date would make the derived
columns float-rendered, NaT rows getting empty cells.) -/
theorem transform_year_month (t u : Csv) (h : transform_data t = .ok u)
    (hdates : ∀ r ∈ t.rows,
      (parseDMY (cellAt r (dateIdx t.header))).isSome = true) :
    ∀ i, i < t.rows.length →
      ∃ d, parseDMY (cellAt (t.rows.getD i []) (dateIdx t.header)) = some d ∧
        cellAt (u.rows.getD i []) ((t.rows.getD i []).length) =
          toString d.year ∧
        cellAt (u.rows.getD i []) ((t.rows.getD i []).length + 1) =
          toString d.month := by
  obtain ⟨-, -, hfind, hu⟩ := transform_ok_inv t u h
  subst hu
  have hna : ∀ r ∈ t.rows, isNaCell (cellAt r (dateIdx t.header)) = false := by
    intro r hmem
    have hs := hdates r hmem
    cases hq : isNaCell (cellAt r (dateIdx t.header))
    · rfl
    · rw [parseDMY_na _ hq] at hs
      simp at hs
  have hanyf : t.rows.any
      (fun r => isNaCell (cellAt r (dateIdx t.header))) = false := by
    rw [List.any_eq_false]
    intro r hmem
    simp [hna r hmem]
  rw [hanyf]
  intro i hi
  cases hx : t.rows[i]? with
  | none =>
    have := List.getElem?_eq_none_iff.mp hx
    omega
  | some row =>
    have hmem : row ∈ t.rows := List.getElem?_mem hx
    obtain ⟨d, hd⟩ : ∃ d, parseDMY (cellAt row (dateIdx t.header)) = some d := by
      have hs := hdates row hmem
      cases hp : parseDMY (cellAt row (dateIdx t.header)) with
      | none => rw [hp] at hs; simp at hs
      | some d => exact ⟨d, rfl⟩
    have hgr : t.rows.getD i [] = row := by
      rw [List.getD_eq_getElem?_getD, hx]
      rfl
    have hgu : ∀ (f : List String → List String),
        ((t.rows.map f).getD i []) = f row := by
      intro f
      rw [List.getD_eq_getElem?_getD, List.getElem?_map, hx]
      rfl
    have hrow : transformRow (dateIdx t.header) false row =
        row.set (dateIdx t.header) (renderISO d) ++
          [toString d.year, toString d.month] := by
      unfold transformRow
      rw [if_neg (by rw [hna row hmem]; simp), hd]
      rfl
    refine ⟨d, by rw [hgr]; exact hd, ?_, ?_⟩
    · simp only [hgu, hgr, hrow]
      unfold cellAt
      rw [List.getD_eq_getElem?_getD, List.getElem?_append_right
          (by rw [List.length_set])]
      simp [List.length_set]
    · simp only [hgu, hgr, hrow]
      unfold cellAt
      rw [List.getD_eq_getElem?_getD, List.getElem?_append_right
          (by rw [List.length_set]; omega)]
      simp [List.length_set]

/-- C8 as amended: over a frame holding the six category columns and the
collection-date column, the Transformer fails with a parse error exactly
when some present (non-missing) collection-date value does not match the
`%d/%m/%Y` format, and it completes without error exactly when every
value is missing or matches — a missing value propagates as NaT without
error. -/
theorem transform_parse_error_iff_amended (t : Csv)
    (hcat : ∀ c ∈ category_cols, t.header.contains c = true)
    (hdate : t.header.contains dateCol = true) :
    ((∃ v, transform_data t = .error (.parseError v)) ↔
      ∃ r ∈ t.rows, isNaCell (cellAt r (dateIdx t.header)) = false ∧
        parseDMY (cellAt r (dateIdx t.header)) = none) ∧
    ((∃ u, transform_data t = .ok u) ↔
      ∀ r ∈ t.rows, isNaCell (cellAt r (dateIdx t.header)) = true ∨
        (parseDMY (cellAt r (dateIdx t.header))).isSome = true) := by
  have hfc : category_cols.find? (fun c => !(t.header.contains c)) = none := by
    rw [List.find?_eq_none]
    intro c hc
    rw [hcat c hc]
    simp
  cases hr : t.rows.find?
      (fun r => !(isNaCell (cellAt r (dateIdx t.header)))
        && (parseDMY (cellAt r (dateIdx t.header))).isNone) with
  | some r =>
    have hmem := List.mem_of_find?_eq_some hr
    have hpred := List.find?_some hr
    rw [Bool.and_eq_true, Bool.not_eq_true'] at hpred
    obtain ⟨hprna, hprnone⟩ := hpred
    have hnone : parseDMY (cellAt r (dateIdx t.header)) = none := by
      cases hp : parseDMY (cellAt r (dateIdx t.header)) with
      | none => rfl
      | some d => rw [hp] at hprnone; simp at hprnone
    constructor
    · simp only [transform_data, hfc, hdate, if_true, hr]
      constructor
      · intro _
        exact ⟨r, hmem, hprna, hnone⟩
      · intro _
        exact ⟨cellAt r (dateIdx t.header), rfl⟩
    · simp only [transform_data, hfc, hdate, if_true, hr]
      constructor
      · rintro ⟨u, hu⟩
        exact absurd hu (by simp)
      · intro hall
        rcases hall r hmem with h1 | h1
        · rw [h1] at hprna
          simp at hprna
        · rw [hnone] at h1
          simp at h1
  | none =>
    have hall : ∀ r ∈ t.rows,
        isNaCell (cellAt r (dateIdx t.header)) = true ∨
          (parseDMY (cellAt r (dateIdx t.header))).isSome = true := by
      intro r hmem
      have hnr := List.find?_eq_none.mp hr r hmem
      rw [Bool.and_eq_true, Bool.not_eq_true'] at hnr
      by_cases hq : isNaCell (cellAt r (dateIdx t.header)) = true
      · exact Or.inl hq
      · right
        cases hp : parseDMY (cellAt r (dateIdx t.header)) with
        | none =>
          exfalso
          exact hnr ⟨by simpa using hq, by rw [hp]; rfl⟩
        | some d => rfl
    constructor
    · simp only [transform_data, hfc, hdate, if_true, hr]
      constructor
      · rintro ⟨v, hv⟩
        exact absurd hv (by simp)
      · rintro ⟨r, hmem, hrna, hrnone⟩
        rcases hall r hmem with h1 | h1
        · rw [h1] at hrna
          simp at hrna
        · rw [hrnone] at h1
          simp at h1
    · simp only [transform_data, hfc, hdate, if_true, hr]
      exact ⟨fun _ => hall, fun _ => ⟨_, rfl⟩⟩

/-- C10: unlike the Cleaner, the Transformer treats a missing column as
an error: a frame lacking one of the six category columns or the
collection-date column makes it fail with a missing-column error naming
an absent required column. -/
theorem transform_missing_column (t : Csv)
    (h : ∃ c ∈ category_cols ++ [dateCol], t.header.contains c = false) :
    ∃ c, transform_data t = .error (.missingColumn c) ∧
      c ∈ category_cols ++ [dateCol] ∧ t.header.contains c = false := by
  cases hc : category_cols.find? (fun c => !(t.header.contains c)) with
  | some c =>
    have hm := List.mem_of_find?_eq_some hc
    have hp := List.find?_some hc
    refine ⟨c, ?_, List.mem_append_left _ hm, by simpa using hp⟩
    simp only [transform_data, hc]
  | none =>
    obtain ⟨c, hmem, hfalse⟩ := h
    have hcats : ∀ x ∈ category_cols, t.header.contains x = true := by
      intro x hx
      have hnx := List.find?_eq_none.mp hc x hx
      cases hb : t.header.contains x
      · exact absurd (by rw [hb]; rfl) hnx
      · rfl
    have hcd : c = dateCol := by
      rcases List.mem_append.mp hmem with h1 | h1
      · exact absurd (hcats c h1) (by rw [hfalse]; simp)
      · simpa using h1
    subst hcd
    refine ⟨dateCol, ?_, by simp, hfalse⟩
    simp only [transform_data, hc, hfalse, Bool.false_eq_true, if_false]

/-- A cleaned file with one well-formed row, for the transform
witnesses. -/
def tclean : Csv :=
  ⟨["Revenda", "CNPJ da Revenda", "Cep", "Produto", "Data da Coleta",
    "Valor de Venda", "Unidade de Medida", "Bandeira"],
   [["Posto A", "123", "999", "Gasolina", "05/01/2025", "5.99", "L",
     "Ipiranga"]]⟩

/-- The transform of `tclean`. -/
def ttrans : Csv :=
  ⟨["Revenda", "CNPJ da Revenda", "Cep", "Produto", "Data da Coleta",
    "Valor de Venda", "Unidade de Medida", "Bandeira", "Year", "Month"],
   [["Posto A", "123", "999", "Gasolina", "2025-01-05", "5.99", "L",
     "Ipiranga", "2025", "1"]]⟩

/-- Witness for C6 at a one-row cleaned file. -/
theorem transform_row_count_and_columns_witness :
    ttrans.rows.length = tclean.rows.length ∧
    ttrans.header = tclean.header ++ ["Year", "Month"] ∧
    ∀ i k, k ≠ dateIdx tclean.header → k < (tclean.rows.getD i []).length →
      cellAt (ttrans.rows.getD i []) k = cellAt (tclean.rows.getD i []) k :=
  transform_row_count_and_columns tclean ttrans (by decide)

/-- Witness for C7 at row 0 of the one-row cleaned file. -/
theorem transform_year_month_witness :
    ∃ d, parseDMY (cellAt (tclean.rows.getD 0 []) (dateIdx tclean.header)) =
        some d ∧
      cellAt (ttrans.rows.getD 0 []) ((tclean.rows.getD 0 []).length) =
        toString d.year ∧
      cellAt (ttrans.rows.getD 0 []) ((tclean.rows.getD 0 []).length + 1) =
        toString d.month :=
  transform_year_month tclean ttrans (by decide) (by decide) 0 (by decide)

/-- A cleaned file whose single row has a missing collection date. -/
def tnat : Csv :=
  ⟨["Revenda", "CNPJ da Revenda", "Cep", "Produto", "Data da Coleta",
    "Valor de Venda", "Unidade de Medida", "Bandeira"],
   [["Posto A", "123", "999", "Gasolina", "", "5.99", "L", "Ipiranga"]]⟩

/-- C8, counterexample: a cleaned file with a missing collection-date
value — a value that does not match the `%d/%m/%Y` format — transforms
without any error: the NaN propagates as NaT, contradicting the claim
that the Transformer fails whenever some value does not match. -/
theorem transform_nan_date_counterexample :
    transform_data tnat =
      .ok ⟨["Revenda", "CNPJ da Revenda", "Cep", "Produto", "Data da Coleta",
            "Valor de Venda", "Unidade de Medida", "Bandeira", "Year",
            "Month"],
           [["Posto A", "123", "999", "Gasolina", "", "5.99", "L", "Ipiranga",
             "", ""]]⟩ ∧
    parseDMY (cellAt (tnat.rows.getD 0 []) (dateIdx tnat.header)) = none := by
  decide

/-- Witness for C8 at the one-row cleaned file with a parseable date. -/
theorem transform_parse_error_iff_amended_witness :
    ((∃ v, transform_data tclean = .error (.parseError v)) ↔
      ∃ r ∈ tclean.rows, isNaCell (cellAt r (dateIdx tclean.header)) = false ∧
        parseDMY (cellAt r (dateIdx tclean.header)) = none) ∧
    ((∃ u, transform_data tclean = .ok u) ↔
      ∀ r ∈ tclean.rows, isNaCell (cellAt r (dateIdx tclean.header)) = true ∨
        (parseDMY (cellAt r (dateIdx tclean.header))).isSome = true) :=
  transform_parse_error_iff_amended tclean (by decide) (by decide)

/-- A cleaned file lacking all but one required column. -/
def tmiss : Csv := ⟨["Revenda"], []⟩

/-- Witness for C10 at a frame missing required columns. -/
theorem transform_missing_column_witness :
    ∃ c, transform_data tmiss = .error (.missingColumn c) ∧
      c ∈ category_cols ++ [dateCol] ∧ tmiss.header.contains c = false :=
  transform_missing_column tmiss (by decide)

/-! The Cleaner cell-preservation claim. -/

theorem getD_filter_take {α : Type} (p : α → Bool) (d : α) :
    ∀ (l : List α) (j : Nat), j < l.length → p (l.getD j d) = true →
      (l.filter p).getD (((l.take j).filter p).length) d = l.getD j d := by
  intro l
  induction l with
  | nil => intro j hj _; simp at hj
  | cons a t ih =>
    intro j hj hp
    cases j with
    | zero =>
      simp only [List.getD_cons_zero] at hp ⊢
      simp [List.filter_cons, hp]
    | succ j =>
      simp only [List.getD_cons_succ] at hp ⊢
      have hj2 : j < t.length := by simpa using hj
      cases hpa : p a
      · simp only [List.take_succ_cons, List.filter_cons, hpa,
          Bool.false_eq_true, if_false]
        exact ih j hj2 hp
      · simp only [List.take_succ_cons, List.filter_cons, hpa, if_true,
          List.length_cons, List.getD_cons_succ]
        exact ih j hj2 hp

theorem getD_zip {α β : Type} (dA : α) (dB : β) :
    ∀ (A : List α) (B : List β) (j : Nat), j < A.length → j < B.length →
      (A.zip B).getD j (dA, dB) = (A.getD j dA, B.getD j dB) := by
  intro A
  induction A with
  | nil => intro B j hA _; simp at hA
  | cons a t ih =>
    intro B j hA hB
    cases B with
    | nil => simp at hB
    | cons b s =>
      cases j with
      | zero => simp
      | succ j =>
        simp only [List.zip_cons_cons, List.getD_cons_succ]
        exact ih s j (by simpa using hA) (by simpa using hB)

theorem filterlen_zip_take {α β : Type} (p : α → Bool) :
    ∀ (A : List α) (B : List β) (j : Nat), A.length = B.length →
      (((A.zip B).take j).filter (fun x => p x.1)).length =
        ((A.take j).filter p).length := by
  intro A
  induction A with
  | nil => intro B j h; simp
  | cons a t ih =>
    intro B j h
    cases B with
    | nil => simp at h
    | cons b s =>
      cases j with
      | zero => simp
      | succ j =>
        simp only [List.zip_cons_cons, List.take_succ_cons, List.filter_cons]
        cases hpa : p a
        · simp only [Bool.false_eq_true, if_false]
          exact ih s j (by simpa using h)
        · simp only [if_true, List.length_cons]
          rw [ih s j (by simpa using h)]

theorem getD_map_general {α β : Type} (f : α → β) (d : α) :
    ∀ (l : List α) (n : Nat), (l.map f).getD n (f d) = f (l.getD n d) := by
  intro l n
  rw [List.getD_eq_getElem?_getD, List.getElem?_map,
    List.getD_eq_getElem?_getD]
  cases l[n]? <;> simp

theorem normalizeRow_getD (dec : Char) (rows : List (List String))
    (r : List String) (j : Nat) (hj : j < r.length) :
    (normalizeRow dec rows r).getD j "" =
      readCell dec (column rows j) (cellAt r j) := by
  unfold normalizeRow
  rw [List.getD_eq_getElem?_getD, List.getElem?_map, List.getElem?_range hj]
  rfl

theorem readCell_object (dec : Char) (col : List String)
    (h : typedColumn dec col = false) (s : String)
    (hna : isNaCell s = false) :
    readCell dec col s = s := by
  unfold typedColumn at h
  rw [Bool.or_eq_false_iff, Bool.or_eq_false_iff] at h
  unfold readCell
  simp [h.1.1, h.1.2, h.2, hna]

/-- C4 as amended: the Cleaner filters no row — row count and order are
preserved — writes comma-delimited output, and keeps every retained,
present cell of a column that the pandas read leaves as plain strings
character for character: a retained raw column at position `j` lands at
the position counting the kept columns before it, with the same name and,
rowwise, the same cell text for every non-NA cell.  The exceptions are
the cells of columns pandas types (numeric or boolean), which are
re-rendered canonically, and NA-marker cells, which become empty. -/
theorem clean_preserves_nonnumeric_cells (raw : Csv) (j : Nat)
    (hrect : ∀ r ∈ raw.rows, r.length = raw.header.length)
    (hj : j < raw.header.length)
    (hkeep : keep (raw.header.getD j "") = true)
    (hnum : typedColumn ',' (column raw.rows j) = false) :
    clean_sep = "," ∧
    (clean_data raw).rows.length = raw.rows.length ∧
    (clean_data raw).header.getD
        (((raw.header.take j).filter keep).length) "" =
      raw.header.getD j "" ∧
    ∀ i, i < raw.rows.length →
      isNaCell (cellAt (raw.rows.getD i []) j) = false →
      cellAt ((clean_data raw).rows.getD i [])
          (((raw.header.take j).filter keep).length) =
        cellAt (raw.rows.getD i []) j := by
  refine ⟨rfl, by simp [clean_data], ?_, ?_⟩
  · exact getD_filter_take keep "" raw.header j hj hkeep
  · intro i hi hna
    cases hx : raw.rows[i]? with
    | none =>
      have := List.getElem?_eq_none_iff.mp hx
      omega
    | some row =>
      have hmem : row ∈ raw.rows := List.getElem?_mem hx
      have hrl : row.length = raw.header.length := hrect row hmem
      have hgr : raw.rows.getD i [] = row := by
        rw [List.getD_eq_getElem?_getD, hx]
        rfl
      rw [hgr] at hna
      have hgu : (clean_data raw).rows.getD i [] =
          dropRow raw.header (normalizeRow ',' raw.rows row) := by
        show ((raw.rows.map (normalizeRow ',' raw.rows)).map
            (dropRow raw.header)).getD i [] = _
        rw [List.getD_eq_getElem?_getD, List.getElem?_map, List.getElem?_map,
          hx]
        rfl
      rw [hgr, hgu]
      have hnrlen : (normalizeRow ',' raw.rows row).length = row.length := by
        simp [normalizeRow]
      unfold dropRow cellAt
      rw [show ((raw.header.take j).filter keep).length =
          (((raw.header.zip (normalizeRow ',' raw.rows row)).take j).filter
            (fun p => keep p.1)).length from
          (filterlen_zip_take keep raw.header _ j (by omega)).symm]
      rw [show ("" : String) = Prod.snd (("", "") : String × String) from rfl]
      rw [getD_map_general Prod.snd (("", "") : String × String)]
      have hLlen : j < (raw.header.zip (normalizeRow ',' raw.rows row)).length := by
        rw [List.length_zip]
        omega
      have hLget : (raw.header.zip (normalizeRow ',' raw.rows row)).getD j
          ("", "") =
          (raw.header.getD j "", (normalizeRow ',' raw.rows row).getD j "") :=
        getD_zip "" "" raw.header _ j hj (by omega)
      rw [getD_filter_take (fun p => keep p.1) ("", "")
          (raw.header.zip (normalizeRow ',' raw.rows row)) j hLlen
          (by rw [hLget]; exact hkeep)]
      rw [hLget]
      show (normalizeRow ',' raw.rows row).getD j "" = row.getD j ""
      rw [normalizeRow_getD ',' raw.rows row j (by omega)]
      rw [readCell_object ',' _ hnum _ hna]
      rfl

/-- C4, counterexample: the raw sale-price cell `5,99` is read with
decimal comma and re-written as `5.99`, so a retained cell of the cleaned
output is not character-for-character identical to the raw cell. -/
theorem clean_value_transformation_counterexample :
    clean_data ⟨["Valor de Venda"], [["5,99"]]⟩ =
      ⟨["Valor de Venda"], [["5.99"]]⟩ ∧
    ("5.99" : String) ≠ "5,99" := by decide

/-- A raw file with a kept non-typed (object) column in front. -/
def raw0 : Csv :=
  ⟨["Revenda", "Bairro", "Valor de Venda"], [["Posto A", "Centro", "5,99"]]⟩

/-- Witness for C4 at the object column `Revenda` of `raw0`. -/
theorem clean_preserves_nonnumeric_cells_witness :
    clean_sep = "," ∧
    (clean_data raw0).rows.length = raw0.rows.length ∧
    (clean_data raw0).header.getD
        (((raw0.header.take 0).filter keep).length) "" =
      raw0.header.getD 0 "" ∧
    ∀ i, i < raw0.rows.length →
      isNaCell (cellAt (raw0.rows.getD i []) 0) = false →
      cellAt ((clean_data raw0).rows.getD i [])
          (((raw0.header.take 0).filter keep).length) =
        cellAt (raw0.rows.getD i []) 0 :=
  clean_preserves_nonnumeric_cells raw0 0 (by decide) (by decide) (by decide)
    (by decide)

end Pipeline
